import Mathlib

/-
  Verification of the node-graph evaluation engine of the Olive video editor.

  The definitions below are a shallow embedding of
    app/render/backend/renderworker.cpp  (RenderWorker)
    app/codec/oiio/oiiodecoder.cpp       (OIIODecoder)
  Exact rational time arithmetic is modelled with Rat.  Stateful aspects
  (the shared decoder cache, the cooperative cancellation flag, decoder I/O)
  are modelled with explicit state passing plus an event trace, so that
  temporal and locking properties can be stated about a single evaluation.
  External collaborators whose code is not part of the reviewed sources
  (the concrete decoder behaviours, the virtual RetrieveFromDecoder /
  FrameToValue / RenderBlock hooks, the DecoderCache container and the
  cancellation flag) are supplied by an environment record Env; each such
  definition is marked as modelled from the spec.
-/

namespace Olive

/-- Data types a NodeParam can carry (NodeParam::DataType); only kFootage is
treated specially by the worker, the others stand for the remaining types. -/
inductive DataType where
  | kFootage
  | kTexture
  | kInt
  | kFloat
deriving DecidableEq

/-- TimeRange: an immutable pair of exact rational time points
(rational in(), rational out()). -/
structure TimeRange where
  in_ : Rat
  out : Rat
deriving DecidableEq

/-- One decodable media track (Stream); identified by its raw pointer in the
C++ code, modelled here by a numeric identity. -/
structure Stream where
  id : Nat
deriving DecidableEq

/-- Native pixel formats handled by OIIODecoder::Open. -/
inductive PixelFormat where
  | PIX_FMT_RGB8
  | PIX_FMT_RGBA8
  | PIX_FMT_RGB16U
  | PIX_FMT_RGBA16U
  | PIX_FMT_RGB16F
  | PIX_FMT_RGBA16F
  | PIX_FMT_RGB32F
  | PIX_FMT_RGBA32F
deriving DecidableEq

/-- A video frame as produced by Decoder::RetrieveVideo: its dimensions and
pixel format (the pixel payload itself is irrelevant to the claims). -/
structure Frame where
  width : Int
  height : Int
  format : PixelFormat
deriving DecidableEq

/-- QVariant values stored in inputs and value tables. -/
inductive QVariant where
  | null
  | intV (n : Int)
  | ratV (q : Rat)
  | streamV (s : Option Stream)
  | frameV (f : Frame)
deriving DecidableEq

/-- QVariant::value of StreamPtr: yields the held stream pointer, or a null
pointer (none) when the variant holds a different type. -/
def QVariant.toStreamPtr : QVariant → Option Stream
  | QVariant.streamV s => s
  | _ => none

/-- Decoder::RetrieveState. -/
inductive RetrieveState where
  | kNotReady
  | kReady
  | kFailedToOpen
deriving DecidableEq

/-- NodeValueTable: ordered sequence of (data type, value) entries;
Push appends at the end. -/
abbrev NodeValueTable := List (DataType × QVariant)

def NodeValueTable.empty : NodeValueTable := []

def NodeValueTable.Push (t : NodeValueTable) (dt : DataType) (v : QVariant) :
    NodeValueTable :=
  t ++ [(dt, v)]

/-- NodeValueDatabase: mapping from input identity to its value table. -/
abbrev NodeValueDatabase := List (Nat × NodeValueTable)

def NodeValueDatabase.empty : NodeValueDatabase := []

/-- Database insertion; a second Insert for the same input replaces the
prior entry. -/
def NodeValueDatabase.Insert (db : NodeValueDatabase) (k : Nat)
    (tbl : NodeValueTable) : NodeValueDatabase :=
  if db.any (fun e => e.1 = k) then
    db.map (fun e => if e.1 = k then (k, tbl) else e)
  else
    db ++ [(k, tbl)]

/-- NodeInput: an input parameter.  It is either connected to another node
(by node identity) or unconnected; value_at is its own literal/keyed value
storage (get_value_at_time), independent of the connection. -/
structure NodeInput where
  id : Nat
  data_type : DataType
  connected : Option Nat
  value_at : Rat → QVariant

/-- A node parameter is either an input or an output (NodeParam::type()). -/
inductive NodeParam where
  | inputP (input : NodeInput)
  | outputP (id : Nat)

/-- One graph vertex: track capability, ordered parameters, the pure
Value(database) function and the per-input time adjustment. -/
structure NodeData where
  IsTrack : Bool
  parameters : List NodeParam
  Value : NodeValueDatabase → NodeValueTable
  InputTimeAdjustment : Nat → TimeRange → TimeRange

/-- The read-only node graph: node identity to node data. -/
abbrev NodeGraph := Nat → NodeData

/-- NodeDependency: (node, time range), the unit of evaluation. -/
structure NodeDependency where
  node : Nat
  range : TimeRange

/-- Observable events of one evaluation, in chronological order: the
cancellation polls, decoder-cache lock transitions and accesses, decoder
I/O, the open-failure warning, and the FootageUnavailable signal. -/
inductive REvent where
  | pollE (cancelled : Bool)
  | lockAcquire
  | lockRelease
  | cacheGetE (key : Option Nat)
  | decoderCreate (sid : Nat)
  | decoderOpen (sid : Nat) (ok : Bool)
  | cacheAddE (sid : Nat)
  | warnOpenFailed (sid : Nat)
  | stateQueryE (sid : Nat) (t : Rat)
  | retrieveVideoE (sid : Nat) (r : TimeRange)
  | footageUnavailableE (sid : Nat) (state : RetrieveState)
      (outer : TimeRange) (t : Rat)
deriving DecidableEq

/-- The mutable state threaded through one evaluation: the shared decoder
cache (the set of stream identities holding an open cached decoder), the
number of cancellation polls made so far, and the event trace. -/
structure RenderState where
  cache : List Nat
  polls : Nat
  events : List REvent
deriving DecidableEq

def RenderState.emit (st : RenderState) (e : REvent) : RenderState :=
  { st with events := st.events ++ [e] }

/-- The environment of one evaluation: behaviours of the external
collaborators that the reviewed sources only call into. -/
structure Env where
  /-- Modelled from the spec: the shared cooperative cancellation flag
  (RenderWorker::IsCancelled), sampled at each poll; indexed by the number
  of polls made so far, so that the flag may be set at any point during the
  evaluation by an external party. -/
  cancelled : Nat → Bool
  /-- Modelled from the spec: whether Decoder::Open succeeds for the decoder
  bound to the given stream. -/
  openOk : Nat → Bool
  /-- Modelled from the spec: Decoder::GetRetrieveState for the stream's
  decoder at a given time. -/
  retState : Nat → Rat → RetrieveState
  /-- Modelled from the spec: the frame (or absence of one) produced by the
  stream's decoder for a requested range (Decoder.RetrieveVideo returns
  Frame or absent). -/
  retVideo : Nat → TimeRange → Option Frame
  /-- Modelled from the spec: the derived value FrameToValue pushes for a
  retrieved frame. -/
  frameValue : Stream → Frame → QVariant
  /-- Modelled from the spec: RenderBlock, the block-range-splitting
  evaluation for track nodes (out of scope, external collaborator). -/
  renderBlock : Nat → TimeRange → NodeValueTable
  /-- The worker's current path field path_ as used by
  ReportUnavailableFootage: the original outer descriptor's range, set once
  by Render. -/
  pathRange : TimeRange

/-- Modelled from the spec: DecoderCache::Get — look up the decoder for a
stream key without creating one.  A decoder is identified here by the
stream it is bound to; a null key is never present in the cache. -/
def DecoderCache.Get (cache : List Nat) (key : Option Nat) : Option Nat :=
  match key with
  | none => none
  | some k => if k ∈ cache then some k else none

/-- Modelled from the spec: DecoderCache::Add — insert the decoder under
the stream key. -/
def DecoderCache.Add (cache : List Nat) (key : Nat) : List Nat :=
  key :: cache

/-- RenderWorker::ResolveStreamFromInput: sample the input's own stored
value at time 0 and convert it to a stream pointer. -/
def RenderWorker.ResolveStreamFromInput (input : NodeInput) : Option Stream :=
  (input.value_at 0).toStreamPtr

/-- RenderWorker::ResolveDecoderFromInput.  The QMutexLocker is constructed
on entry and destroyed on return, so the lock transitions wrap the whole
body: Get, and on a miss with a non-null stream, create, Open, and either
Add (success) or the discard-with-warning path (failure). -/
def RenderWorker.ResolveDecoderFromInput (env : Env) (stream : Option Stream)
    (st : RenderState) : Option Nat × RenderState :=
  let st := st.emit REvent.lockAcquire
  let key := stream.map Stream.id
  let decoder := DecoderCache.Get st.cache key
  let st := st.emit (REvent.cacheGetE key)
  match decoder, stream with
  | none, some s =>
    let st := st.emit (REvent.decoderCreate s.id)
    let ok := env.openOk s.id
    let st := st.emit (REvent.decoderOpen s.id ok)
    if ok then
      let st := { st with cache := DecoderCache.Add st.cache s.id }
      let st := st.emit (REvent.cacheAddE s.id)
      (some s.id, st.emit REvent.lockRelease)
    else
      let st := st.emit (REvent.warnOpenFailed s.id)
      (none, st.emit REvent.lockRelease)
  | d, _ => (d, st.emit REvent.lockRelease)

/-- RenderWorker::ReportUnavailableFootage: emit the FootageUnavailable
signal carrying the stream, the retrieve state, the current path's range
and the stream time. -/
def RenderWorker.ReportUnavailableFootage (env : Env) (s : Stream)
    (state : RetrieveState) (stream_time : Rat) (st : RenderState) :
    RenderState :=
  st.emit (REvent.footageUnavailableE s.id state env.pathRange stream_time)

/-- The decoder->GetRetrieveState call made by GenerateDatabase; the
decoder's answer is supplied by the environment and the query is recorded
as decoder I/O. -/
def RenderWorker.decoderGetRetrieveState (env : Env) (d : Nat) (t : Rat)
    (st : RenderState) : RetrieveState × RenderState :=
  (env.retState d t, st.emit (REvent.stateQueryE d t))

/-- Modelled from the spec: RetrieveFromDecoder (a virtual of RenderWorker
implemented by the concrete worker, not among the reviewed sources) —
retrieve a frame, or no frame, from the decoder for the adjusted range. -/
def RenderWorker.RetrieveFromDecoder (env : Env) (d : Nat)
    (range : TimeRange) (st : RenderState) : Option Frame × RenderState :=
  (env.retVideo d range, st.emit (REvent.retrieveVideoE d range))

/-- Modelled from the spec: FrameToValue (a virtual of RenderWorker
implemented by the concrete worker) — push one derived value for the
retrieved frame onto the table. -/
def RenderWorker.FrameToValue (env : Env) (s : Stream) (f : Frame)
    (table : NodeValueTable) : NodeValueTable :=
  table.Push DataType.kTexture (env.frameValue s f)

/-- The body of the kFootage special case of RenderWorker::GenerateDatabase:
resolve the stream, then the decoder; query the retrieve state at the
adjusted sub-range's end; if ready retrieve a frame and, when one is
returned, push its derived value; otherwise report unavailable footage. -/
def RenderWorker.footageStep (env : Env) (input : NodeInput)
    (input_time : TimeRange) (table : NodeValueTable) (st : RenderState) :
    NodeValueTable × RenderState :=
  match RenderWorker.ResolveStreamFromInput input with
  | none => (table, st)
  | some s =>
    let r1 := RenderWorker.ResolveDecoderFromInput env (some s) st
    match r1.1 with
    | none => (table, r1.2)
    | some d =>
      let r2 := RenderWorker.decoderGetRetrieveState env d input_time.out r1.2
      if r2.1 = RetrieveState.kReady then
        let r3 := RenderWorker.RetrieveFromDecoder env d input_time r2.2
        match r3.1 with
        | some f => (RenderWorker.FrameToValue env s f table, r3.2)
        | none => (table, r3.2)
      else
        (table, RenderWorker.ReportUnavailableFootage env s r2.1
                  input_time.out r2.2)

/-- RenderWorker::ProcessInput: a connected input recurses into the
connected node over the given range; an unconnected input pushes its own
value sampled at the range's start onto a fresh table. -/
def RenderWorker.ProcessInput
    (recurse : Nat → TimeRange → RenderState → NodeValueTable × RenderState)
    (input : NodeInput) (range : TimeRange) (st : RenderState) :
    NodeValueTable × RenderState :=
  match input.connected with
  | some m => recurse m range st
  | none =>
    (NodeValueTable.empty.Push input.data_type (input.value_at range.in_), st)

/-- The foreach loop of RenderWorker::GenerateDatabase over the node's
parameters: each iteration polls IsCancelled (returning a fresh empty
database when cancelled), skips non-input parameters, and otherwise
resolves the input over its adjusted sub-range, applies the footage
special case, and inserts the table into the database. -/
def RenderWorker.GenerateDatabaseLoop
    (recurse : Nat → TimeRange → RenderState → NodeValueTable × RenderState)
    (env : Env) (node : NodeData) (range : TimeRange) :
    List NodeParam → NodeValueDatabase → RenderState →
    NodeValueDatabase × RenderState
  | [], db, st => (db, st)
  | p :: ps, db, st =>
    let c := env.cancelled st.polls
    let st := { st with polls := st.polls + 1,
                        events := st.events ++ [REvent.pollE c] }
    if c then
      (NodeValueDatabase.empty, st)
    else
      match p with
      | NodeParam.outputP _ =>
        RenderWorker.GenerateDatabaseLoop recurse env node range ps db st
      | NodeParam.inputP input =>
        let input_time := node.InputTimeAdjustment input.id range
        let r1 := RenderWorker.ProcessInput recurse input input_time st
        let r2 := if input.data_type = DataType.kFootage then
                    RenderWorker.footageStep env input input_time r1.1 r1.2
                  else r1
        RenderWorker.GenerateDatabaseLoop recurse env node range ps
          (db.Insert input.id r2.1) r2.2

/-- RenderWorker::GenerateDatabase. -/
def RenderWorker.GenerateDatabase
    (recurse : Nat → TimeRange → RenderState → NodeValueTable × RenderState)
    (env : Env) (node : NodeData) (range : TimeRange) (st : RenderState) :
    NodeValueDatabase × RenderState :=
  RenderWorker.GenerateDatabaseLoop recurse env node range node.parameters
    NodeValueDatabase.empty st

/-- RenderWorker::RunNodeAccelerated: in the base worker this is a no-op
that leaves the output table unchanged. -/
def RenderWorker.RunNodeAccelerated (_node : NodeData) (_range : TimeRange)
    (_input_params : NodeValueDatabase) (output_params : NodeValueTable) :
    NodeValueTable :=
  output_params

/-- RenderWorker::ProcessNode: track nodes delegate to RenderBlock;
otherwise generate the database of input values, apply the node's Value
function, and offer the result to the acceleration hook.  The fuel bounds
the recursion depth (the graph is acyclic by assumption; on cyclic graphs
behaviour is undefined and exhausted fuel yields an empty table). -/
def RenderWorker.ProcessNode (env : Env) (g : NodeGraph) :
    Nat → Nat → TimeRange → RenderState → NodeValueTable × RenderState
  | 0, _, _, st => (NodeValueTable.empty, st)
  | fuel + 1, nid, range, st =>
    let node := g nid
    if node.IsTrack then
      (env.renderBlock nid range, st)
    else
      let r := RenderWorker.GenerateDatabase
        (RenderWorker.ProcessNode env g fuel) env node range st
      let table := node.Value r.1
      let table := RenderWorker.RunNodeAccelerated node range r.1 table
      (table, r.2)

/-- RenderWorker::RenderInternal (job_time is unused). -/
def RenderWorker.RenderInternal (env : Env) (g : NodeGraph) (fuel : Nat)
    (path : NodeDependency) (st : RenderState) :
    NodeValueTable × RenderState :=
  RenderWorker.ProcessNode env g fuel path.node path.range st

/-- RenderWorker::Render: store the path (whose range
ReportUnavailableFootage later attaches to notifications) and evaluate it. -/
def RenderWorker.Render (env : Env) (g : NodeGraph) (fuel : Nat)
    (path : NodeDependency) (st : RenderState) :
    NodeValueTable × RenderState :=
  RenderWorker.RenderInternal { env with pathRange := path.range } g fuel
    path st

/- ===== OIIODecoder (app/codec/oiio/oiiodecoder.cpp) ===== -/

/-- OIIO pixel data formats distinguished by OIIODecoder::Open. -/
inductive TypeDesc where
  | UINT8
  | UINT16
  | HALF
  | FLOAT
  | UNKNOWN
deriving DecidableEq

/-- The OIIO::ImageSpec data consulted by Open. -/
structure ImageSpec where
  width : Int
  height : Int
  nchannels : Int
  format : TypeDesc
deriving DecidableEq

/-- kRGBAChannels from common/define.h. -/
def kRGBAChannels : Int := 4

/-- The OIIODecoder's fields relevant to the claims; open_ becomes true
only when Open succeeds. -/
structure OIIODecoder where
  open_ : Bool
  width_ : Int
  height_ : Int
  is_rgba_ : Bool
  pix_fmt_ : PixelFormat
deriving DecidableEq

/-- The pixel-format selection chain of OIIODecoder::Open: UINT8, UINT16,
HALF and FLOAT map to native formats (RGBA variants when the image has
four channels); anything else is unsupported. -/
def OIIODecoder.pixFmtFor (fmt : TypeDesc) (rgba : Bool) :
    Option PixelFormat :=
  match fmt with
  | TypeDesc.UINT8 =>
    some (if rgba then PixelFormat.PIX_FMT_RGBA8 else PixelFormat.PIX_FMT_RGB8)
  | TypeDesc.UINT16 =>
    some (if rgba then PixelFormat.PIX_FMT_RGBA16U else PixelFormat.PIX_FMT_RGB16U)
  | TypeDesc.HALF =>
    some (if rgba then PixelFormat.PIX_FMT_RGBA16F else PixelFormat.PIX_FMT_RGB16F)
  | TypeDesc.FLOAT =>
    some (if rgba then PixelFormat.PIX_FMT_RGBA32F else PixelFormat.PIX_FMT_RGB32F)
  | TypeDesc.UNKNOWN => none

/-- OIIODecoder::Open: image is the result of OIIO::ImageInput::open (none
when the file could not be opened).  On success the native width, height
and channel flag are recorded from the spec; if the pixel format is
unsupported the function fails after recording them, leaving open_ false. -/
def OIIODecoder.Open (d : OIIODecoder) (image : Option ImageSpec) :
    OIIODecoder × Bool :=
  match image with
  | none => (d, false)
  | some spec =>
    let d := { d with width_ := spec.width, height_ := spec.height,
                      is_rgba_ := spec.nchannels == kRGBAChannels }
    match OIIODecoder.pixFmtFor spec.format d.is_rgba_ with
    | none => (d, false)
    | some pf => ({ d with pix_fmt_ := pf, open_ := true }, true)

/-- OIIODecoder::GetRetrieveState: kFailedToOpen unless the decoder has
been opened, kReady otherwise; the time argument is ignored. -/
def OIIODecoder.GetRetrieveState (d : OIIODecoder) (_time : Rat) :
    RetrieveState :=
  if !d.open_ then RetrieveState.kFailedToOpen else RetrieveState.kReady

/-- OIIODecoder::RetrieveVideo: null unless open; otherwise a frame whose
dimensions are the native ones divided by the divider (C++ int division,
which truncates toward zero: Int.tdiv) in the decoder's pixel format. -/
def OIIODecoder.RetrieveVideo (d : OIIODecoder) (_timecode : Rat)
    (divider : Int) : Option Frame :=
  if !d.open_ then none
  else some { width := Int.tdiv d.width_ divider,
              height := Int.tdiv d.height_ divider,
              format := d.pix_fmt_ }

/- ===== Trace predicates ===== -/

/-- Decoder I/O events: decoder creation, Open, retrieval-state query and
frame retrieval. -/
def REvent.isDecoderIOEvent : REvent → Bool
  | REvent.decoderCreate _ => true
  | REvent.decoderOpen _ _ => true
  | REvent.stateQueryE _ _ => true
  | REvent.retrieveVideoE _ _ => true
  | _ => false

/-- True when no decoder I/O occurs after the first cancellation poll that
observed the flag set. -/
def noIOAfterCancel : List REvent → Bool
  | [] => true
  | REvent.pollE true :: rest => rest.all (fun e => !e.isDecoderIOEvent)
  | _ :: rest => noIOAfterCancel rest

/-- True when every decoder-create, decoder-open and cache-add event in the
trace happens while the decoder-cache lock is not held; d is the current
lock depth. -/
def createOpenAddOutsideLock (d : Nat) : List REvent → Bool
  | [] => true
  | REvent.lockAcquire :: rest => createOpenAddOutsideLock (d + 1) rest
  | REvent.lockRelease :: rest => createOpenAddOutsideLock (d - 1) rest
  | REvent.decoderCreate _ :: rest => (d == 0) && createOpenAddOutsideLock d rest
  | REvent.decoderOpen _ _ :: rest => (d == 0) && createOpenAddOutsideLock d rest
  | REvent.cacheAddE _ :: rest => (d == 0) && createOpenAddOutsideLock d rest
  | _ :: rest => createOpenAddOutsideLock d rest

/-- True when the trace begins by acquiring the lock, ends by releasing it,
and performs no lock transition in between: the lock is held throughout. -/
def heldThroughout (evs : List REvent) : Bool :=
  (evs.head? == some REvent.lockAcquire) &&
  (evs.getLast? == some REvent.lockRelease) &&
  ((evs.drop 1).dropLast.all fun e =>
    !(e == REvent.lockAcquire || e == REvent.lockRelease))

/- ===== Concrete fixtures used by witnesses and counterexamples ===== -/

/-- The initial worker state: empty decoder cache, no polls, no events. -/
def stEmpty : RenderState := ⟨[], 0, []⟩

/-- The time range [0, 1). -/
def rng01 : TimeRange := ⟨0, 1⟩

/-- A benign environment: never cancelled, every decoder opens, always
ready, and retrieval yields a 16x9 frame. -/
def env0 : Env :=
  { cancelled := fun _ => false
    openOk := fun _ => true
    retState := fun _ _ => RetrieveState.kReady
    retVideo := fun _ _ => some ⟨16, 9, PixelFormat.PIX_FMT_RGBA8⟩
    frameValue := fun _ f => QVariant.frameV f
    renderBlock := fun _ _ => NodeValueTable.empty
    pathRange := ⟨0, 1⟩ }

/-- An unconnected integer input holding the literal 5. -/
def input5 : NodeInput := ⟨0, DataType.kInt, none, fun _ => QVariant.intV 5⟩

/-- A plain node with one unconnected input whose Value is the constant
table [(kInt, 7)]. -/
def node7 : NodeData :=
  ⟨false, [NodeParam.inputP input5],
   fun _ => [(DataType.kInt, QVariant.intV 7)], fun _ r => r⟩

/-- The graph in which every identity is node7. -/
def g7 : NodeGraph := fun _ => node7

/-- A footage input, connected to node 1, whose own stored value names
stream 7. -/
def inputFoot7 : NodeInput :=
  ⟨0, DataType.kFootage, some 1, fun _ => QVariant.streamV (some ⟨7⟩)⟩

/-- The outer node of the cancellation scenario: one footage input
connected to node 1. -/
def nodeOuter6 : NodeData :=
  ⟨false, [NodeParam.inputP inputFoot7], fun _ => [], fun _ r => r⟩

/-- Graph for the cancellation scenario: node 0 is the outer footage node,
every other identity is node7. -/
def g6 : NodeGraph := fun n => if n = 0 then nodeOuter6 else node7

/-- Environment whose cancellation flag becomes set right after the first
poll: false at poll 0, true from poll 1 on. -/
def env6 : Env := { env0 with cancelled := fun p => decide (1 ≤ p) }

/-- An unconnected footage input whose own stored value names stream 3. -/
def inputFoot3 : NodeInput :=
  ⟨0, DataType.kFootage, none, fun _ => QVariant.streamV (some ⟨3⟩)⟩

/-- A recursion stub for statements about a single loop step. -/
def zeroRecurse : Nat → TimeRange → RenderState → NodeValueTable × RenderState :=
  fun _ _ st => (NodeValueTable.empty, st)

/-- Environment whose cancellation flag is already set before evaluation
begins. -/
def envCancelAll : Env := { env0 with cancelled := fun _ => true }

/-- An input connected to node 1. -/
def inputConn1 : NodeInput := ⟨2, DataType.kInt, some 1, fun _ => QVariant.null⟩

/-- Environment in which every decoder open fails. -/
def envOpenFail : Env := { env0 with openOk := fun _ => false }

/-- Environment whose decoders are ready but never return a frame. -/
def envNoFrame : Env := { env0 with retVideo := fun _ _ => none }

/- ===== Theorems ===== -/

/-- C4: resolving an unconnected input yields a fresh table holding exactly
the input's literal/keyed value sampled at the sub-range's start time,
leaves the worker state untouched, and yields the same table on any repeated
resolution, whatever evaluator or state is in effect — a pure function of
the input and the time. -/
theorem claim4_unconnected_pure
    (recurse recurse' : Nat → TimeRange → RenderState → NodeValueTable × RenderState)
    (input : NodeInput) (range : TimeRange) (st st' : RenderState)
    (h : input.connected = none) :
    RenderWorker.ProcessInput recurse input range st =
      ([(input.data_type, input.value_at range.in_)], st) ∧
    (RenderWorker.ProcessInput recurse input range st).1 =
      (RenderWorker.ProcessInput recurse' input range st').1 := by
  unfold RenderWorker.ProcessInput
  rw [h]
  exact ⟨rfl, rfl⟩

/-- Witness for C4 at a concrete unconnected input. -/
theorem claim4_witness :
    RenderWorker.ProcessInput zeroRecurse input5 rng01 stEmpty =
      ([(input5.data_type, input5.value_at rng01.in_)], stEmpty) ∧
    (RenderWorker.ProcessInput zeroRecurse input5 rng01 stEmpty).1 =
      (RenderWorker.ProcessInput zeroRecurse input5 rng01 ⟨[4], 2, []⟩).1 :=
  claim4_unconnected_pure zeroRecurse zeroRecurse input5 rng01 stEmpty
    ⟨[4], 2, []⟩ rfl

/-- C9: a footage input's stream is resolved by sampling the input's own
stored value at time 0; the result is the same whatever the connection
state is, and ResolveStreamFromInput receives no time range at all, so it
is independent of the requested range and of the adjusted sub-range. -/
theorem claim9_stream_time_zero (input : NodeInput) (c : Option Nat) :
    RenderWorker.ResolveStreamFromInput { input with connected := c } =
      (input.value_at 0).toStreamPtr ∧
    RenderWorker.ResolveStreamFromInput { input with connected := c } =
      RenderWorker.ResolveStreamFromInput input := by
  exact ⟨rfl, rfl⟩

/-- C10: OIIODecoder::GetRetrieveState answers kFailedToOpen exactly when
the decoder has not been successfully opened and kReady otherwise; it never
answers kNotReady, and the answer does not depend on the queried time. -/
theorem claim10_retrieve_state (d : OIIODecoder) (t : Rat) :
    OIIODecoder.GetRetrieveState d t =
      (if d.open_ then RetrieveState.kReady else RetrieveState.kFailedToOpen) ∧
    OIIODecoder.GetRetrieveState d t ≠ RetrieveState.kNotReady ∧
    OIIODecoder.GetRetrieveState d t = OIIODecoder.GetRetrieveState d 0 := by
  unfold OIIODecoder.GetRetrieveState
  cases hd : d.open_ <;> simp

/-- C8: a successfully opened OIIO decoder records the image's native
dimensions, and RetrieveVideo then returns, for every time and positive
divider, a frame whose width and height are the native width and height
integer-divided (C++ truncation) by the divider. -/
theorem claim8_retrieve_video_dims (d d' : OIIODecoder) (spec : ImageSpec)
    (t : Rat) (divider : Int)
    (hopen : OIIODecoder.Open d (some spec) = (d', true))
    (_hdiv : 0 < divider) :
    OIIODecoder.RetrieveVideo d' t divider =
      some { width := Int.tdiv spec.width divider,
             height := Int.tdiv spec.height divider,
             format := d'.pix_fmt_ } := by
  rcases hpf : OIIODecoder.pixFmtFor spec.format (spec.nchannels == kRGBAChannels)
    with _ | pf
  · simp [OIIODecoder.Open, hpf] at hopen
  · simp [OIIODecoder.Open, hpf] at hopen
    subst hopen
    rfl

/-- C1 (counterexample to the claim as stated): with the cancellation flag
already signaled when the only input parameter is about to be resolved, the
node evaluation does not return an empty value table — the node's Value
function is still applied to the empty database and its (non-empty) result
is returned. -/
theorem claim1_counterexample :
    envCancelAll.cancelled 0 = true ∧
    (RenderWorker.ProcessNode envCancelAll g7 1 0 rng01 stEmpty).1 ≠
      NodeValueTable.empty := by
  decide

/-- C1 (amended): if cancellation has been signaled when an input parameter
is about to be resolved during database generation, the database generation
aborts immediately — nothing happens beyond that one poll and a fresh empty
value database is returned — while the node evaluation itself still applies
the node's Value function to the empty database (and the acceleration hook)
and returns that result, not necessarily an empty table, to its caller. -/
theorem claim1_cancel_aborts_database (fuel : Nat) (env : Env) (g : NodeGraph)
    (nid : Nat) (range : TimeRange) (st : RenderState) (p : NodeParam)
    (ps : List NodeParam)
    (htrack : (g nid).IsTrack = false)
    (hparams : (g nid).parameters = p :: ps)
    (hcancel : env.cancelled st.polls = true) :
    RenderWorker.GenerateDatabase (RenderWorker.ProcessNode env g fuel) env
        (g nid) range st =
      (NodeValueDatabase.empty,
       { st with polls := st.polls + 1,
                 events := st.events ++ [REvent.pollE true] }) ∧
    RenderWorker.ProcessNode env g (fuel + 1) nid range st =
      ((g nid).Value NodeValueDatabase.empty,
       { st with polls := st.polls + 1,
                 events := st.events ++ [REvent.pollE true] }) := by
  have hdb : RenderWorker.GenerateDatabase (RenderWorker.ProcessNode env g fuel)
      env (g nid) range st =
      (NodeValueDatabase.empty,
       { st with polls := st.polls + 1,
                 events := st.events ++ [REvent.pollE true] }) := by
    unfold RenderWorker.GenerateDatabase
    rw [hparams]
    simp [RenderWorker.GenerateDatabaseLoop, hcancel]
  refine ⟨hdb, ?_⟩
  show (let node := g nid
        if node.IsTrack then (env.renderBlock nid range, st)
        else
          let r := RenderWorker.GenerateDatabase
            (RenderWorker.ProcessNode env g fuel) env node range st
          let table := node.Value r.1
          let table := RenderWorker.RunNodeAccelerated node range r.1 table
          (table, r.2)) = _
  simp only [htrack, hdb, RenderWorker.RunNodeAccelerated]
  simp

/-- Witness for C1 (amended) on a concrete cancelled evaluation. -/
theorem claim1_witness :
    RenderWorker.GenerateDatabase (RenderWorker.ProcessNode envCancelAll g7 0)
        envCancelAll (g7 0) rng01 stEmpty =
      (NodeValueDatabase.empty,
       { stEmpty with polls := stEmpty.polls + 1,
                      events := stEmpty.events ++ [REvent.pollE true] }) ∧
    RenderWorker.ProcessNode envCancelAll g7 1 0 rng01 stEmpty =
      ((g7 0).Value NodeValueDatabase.empty,
       { stEmpty with polls := stEmpty.polls + 1,
                      events := stEmpty.events ++ [REvent.pollE true] }) :=
  claim1_cancel_aborts_database 0 envCancelAll g7 0 rng01 stEmpty
    (NodeParam.inputP input5) [] rfl rfl rfl

/-- C5: a connected input resolves to exactly the evaluation of the
connected node over the range it is handed, and inside the database loop
that range is InputTimeAdjustment(input, R) — so, for every recursion depth
(any fuel, hence any depth of an acyclic graph), the table recorded for a
connected (non-footage) input is the connected node's evaluation over the
adjusted sub-range. -/
theorem claim5_connected_recurse (fuel : Nat) (env : Env) (g : NodeGraph)
    (node : NodeData) (input : NodeInput) (m : Nat) (range : TimeRange)
    (ps : List NodeParam) (db : NodeValueDatabase) (st : RenderState)
    (hconn : input.connected = some m)
    (hdt : input.data_type ≠ DataType.kFootage)
    (hcancel : env.cancelled st.polls = false) :
    RenderWorker.ProcessInput (RenderWorker.ProcessNode env g fuel) input
        (node.InputTimeAdjustment input.id range) st =
      RenderWorker.ProcessNode env g fuel m
        (node.InputTimeAdjustment input.id range) st ∧
    RenderWorker.GenerateDatabaseLoop (RenderWorker.ProcessNode env g fuel)
        env node range (NodeParam.inputP input :: ps) db st =
      (let st1 : RenderState :=
         { st with polls := st.polls + 1,
                   events := st.events ++ [REvent.pollE false] }
       let r := RenderWorker.ProcessNode env g fuel m
         (node.InputTimeAdjustment input.id range) st1
       RenderWorker.GenerateDatabaseLoop (RenderWorker.ProcessNode env g fuel)
         env node range ps (NodeValueDatabase.Insert db input.id r.1) r.2) := by
  have h1 : RenderWorker.ProcessInput (RenderWorker.ProcessNode env g fuel)
      input (node.InputTimeAdjustment input.id range) st =
      RenderWorker.ProcessNode env g fuel m
        (node.InputTimeAdjustment input.id range) st := by
    unfold RenderWorker.ProcessInput
    rw [hconn]
  refine ⟨h1, ?_⟩
  simp [RenderWorker.GenerateDatabaseLoop, hcancel, RenderWorker.ProcessInput,
    hconn, hdt]

/-- Witness for C5 at a concrete connected input and depth 1. -/
theorem claim5_witness :
    RenderWorker.ProcessInput (RenderWorker.ProcessNode env0 g7 1) inputConn1
        (node7.InputTimeAdjustment inputConn1.id rng01) stEmpty =
      RenderWorker.ProcessNode env0 g7 1 1
        (node7.InputTimeAdjustment inputConn1.id rng01) stEmpty ∧
    RenderWorker.GenerateDatabaseLoop (RenderWorker.ProcessNode env0 g7 1) env0
        node7 rng01 [NodeParam.inputP inputConn1] NodeValueDatabase.empty
        stEmpty =
      (let st1 : RenderState :=
         { stEmpty with polls := stEmpty.polls + 1,
                        events := stEmpty.events ++ [REvent.pollE false] }
       let r := RenderWorker.ProcessNode env0 g7 1 1
         (node7.InputTimeAdjustment inputConn1.id rng01) st1
       RenderWorker.GenerateDatabaseLoop (RenderWorker.ProcessNode env0 g7 1)
         env0 node7 rng01 []
         (NodeValueDatabase.Insert NodeValueDatabase.empty inputConn1.id r.1)
         r.2) :=
  claim5_connected_recurse 1 env0 g7 node7 inputConn1 1 rng01 []
    NodeValueDatabase.empty stEmpty rfl (by decide) rfl

/-- C6 (counterexample to the claim as stated): the flag reads clear at
poll 0 and set from poll 1 on; evaluating the two-node chain performs the
outer footage input's decoder creation, open, retrieve-state query and
frame retrieval after the recursion's poll already observed the flag set,
so decoder I/O does continue after the flag is set. -/
theorem claim6_counterexample :
    env6.cancelled 0 = false ∧ env6.cancelled 1 = true ∧
    noIOAfterCancel
      (RenderWorker.ProcessNode env6 g6 2 0 rng01 stEmpty).2.events = false := by
  decide

/-- C6 (amended): once a cancellation poll observes the flag, the
GenerateDatabase loop that performed the poll issues no further decoder I/O
at all and immediately — within that single input-resolution step — returns
a fresh empty value database; decoder I/O pending in enclosing evaluations
(for inputs whose resolution was already under way when the flag was set)
may still be issued until each enclosing loop's own next poll. -/
theorem claim6_cancel_no_io
    (recurse : Nat → TimeRange → RenderState → NodeValueTable × RenderState)
    (env : Env) (node : NodeData) (range : TimeRange) (p : NodeParam)
    (ps : List NodeParam) (db : NodeValueDatabase) (st : RenderState)
    (hcancel : env.cancelled st.polls = true) :
    RenderWorker.GenerateDatabaseLoop recurse env node range (p :: ps) db st =
      (NodeValueDatabase.empty,
       { st with polls := st.polls + 1,
                 events := st.events ++ [REvent.pollE true] }) := by
  simp [RenderWorker.GenerateDatabaseLoop, hcancel]

/-- Witness for C6 (amended) on a concrete cancelled loop step. -/
theorem claim6_witness :
    RenderWorker.GenerateDatabaseLoop zeroRecurse envCancelAll node7 rng01
        (NodeParam.inputP input5 :: []) NodeValueDatabase.empty stEmpty =
      (NodeValueDatabase.empty,
       { stEmpty with polls := stEmpty.polls + 1,
                      events := stEmpty.events ++ [REvent.pollE true] }) :=
  claim6_cancel_no_io zeroRecurse envCancelAll node7 rng01
    (NodeParam.inputP input5) [] NodeValueDatabase.empty stEmpty rfl

/-- Witness for C8: a 101x55 RGBA 8-bit image opened successfully, queried
with divider 2, yields a 50x27 frame. -/
theorem claim8_witness :
    OIIODecoder.RetrieveVideo
        ⟨true, 101, 55, true, PixelFormat.PIX_FMT_RGBA8⟩ 0 2 =
      some ⟨Int.tdiv 101 2, Int.tdiv 55 2, PixelFormat.PIX_FMT_RGBA8⟩ :=
  claim8_retrieve_video_dims ⟨false, 0, 0, false, PixelFormat.PIX_FMT_RGB8⟩
    ⟨true, 101, 55, true, PixelFormat.PIX_FMT_RGBA8⟩ ⟨101, 55, 4, TypeDesc.UINT8⟩
    0 2 (by decide) (by decide)

/-- C2: for a footage input whose stream has no cached decoder, when the
freshly created decoder's Open fails: the warning is logged, the decoder is
discarded and Add is never called for that stream (no cache-add event, and
the cache field is untouched), and the node evaluation proceeds to the next
parameter with the input's table holding only its own literal value — no
frame data — rather than aborting. -/
theorem claim2_open_failure_not_cached
    (recurse : Nat → TimeRange → RenderState → NodeValueTable × RenderState)
    (env : Env) (node : NodeData) (range : TimeRange) (input : NodeInput)
    (s : Stream) (ps : List NodeParam) (db : NodeValueDatabase)
    (st : RenderState)
    (hconn : input.connected = none)
    (hdt : input.data_type = DataType.kFootage)
    (hs : (input.value_at 0).toStreamPtr = some s)
    (hmiss : s.id ∉ st.cache)
    (hopen : env.openOk s.id = false)
    (hcancel : env.cancelled st.polls = false) :
    RenderWorker.ResolveDecoderFromInput env (some s) st =
      (none,
       { st with events := st.events ++
          [REvent.lockAcquire, REvent.cacheGetE (some s.id),
           REvent.decoderCreate s.id, REvent.decoderOpen s.id false,
           REvent.warnOpenFailed s.id, REvent.lockRelease] }) ∧
    RenderWorker.GenerateDatabaseLoop recurse env node range
        (NodeParam.inputP input :: ps) db st =
      RenderWorker.GenerateDatabaseLoop recurse env node range ps
        (NodeValueDatabase.Insert db input.id
          (NodeValueTable.Push NodeValueTable.empty input.data_type
            (input.value_at (node.InputTimeAdjustment input.id range).in_)))
        { st with polls := st.polls + 1,
                  events := st.events ++
                    [REvent.pollE false, REvent.lockAcquire,
                     REvent.cacheGetE (some s.id), REvent.decoderCreate s.id,
                     REvent.decoderOpen s.id false,
                     REvent.warnOpenFailed s.id, REvent.lockRelease] } := by
  constructor
  · simp [RenderWorker.ResolveDecoderFromInput, RenderState.emit,
      DecoderCache.Get, hmiss, hopen]
  · simp [RenderWorker.GenerateDatabaseLoop, hcancel,
      RenderWorker.ProcessInput, hconn, hdt, RenderWorker.footageStep,
      RenderWorker.ResolveStreamFromInput, hs,
      RenderWorker.ResolveDecoderFromInput, RenderState.emit,
      DecoderCache.Get, hmiss, hopen, NodeValueTable.Push,
      NodeValueTable.empty]

/-- Witness for C2 on a concrete footage input with a failing open. -/
theorem claim2_witness :
    RenderWorker.ResolveDecoderFromInput envOpenFail (some ⟨3⟩) stEmpty =
      (none,
       { stEmpty with events := stEmpty.events ++
          [REvent.lockAcquire, REvent.cacheGetE (some 3),
           REvent.decoderCreate 3, REvent.decoderOpen 3 false,
           REvent.warnOpenFailed 3, REvent.lockRelease] }) ∧
    RenderWorker.GenerateDatabaseLoop zeroRecurse envOpenFail node7 rng01
        (NodeParam.inputP inputFoot3 :: []) NodeValueDatabase.empty stEmpty =
      RenderWorker.GenerateDatabaseLoop zeroRecurse envOpenFail node7 rng01 []
        (NodeValueDatabase.Insert NodeValueDatabase.empty inputFoot3.id
          (NodeValueTable.Push NodeValueTable.empty inputFoot3.data_type
            (inputFoot3.value_at
              (node7.InputTimeAdjustment inputFoot3.id rng01).in_)))
        { stEmpty with polls := stEmpty.polls + 1,
                       events := stEmpty.events ++
                         [REvent.pollE false, REvent.lockAcquire,
                          REvent.cacheGetE (some 3), REvent.decoderCreate 3,
                          REvent.decoderOpen 3 false,
                          REvent.warnOpenFailed 3, REvent.lockRelease] } :=
  claim2_open_failure_not_cached zeroRecurse envOpenFail node7 rng01
    inputFoot3 ⟨3⟩ [] NodeValueDatabase.empty stEmpty rfl rfl rfl
    (by simp [stEmpty]) rfl rfl

/-- C3 (counterexample to the claim as stated): the decoder is resolved and
reports Ready, the retrieval is attempted, but the decoder returns no frame;
no derived value is pushed and the table is returned unchanged — against
the claim's unconditional "retrieves the frame and pushes a derived value
onto the Input's Table" for the Ready case. -/
theorem claim3_counterexample :
    envNoFrame.retState 3 rng01.out = RetrieveState.kReady ∧
    RenderWorker.footageStep envNoFrame inputFoot3 rng01
        [(DataType.kFootage, QVariant.streamV (some ⟨3⟩))] stEmpty =
      ([(DataType.kFootage, QVariant.streamV (some ⟨3⟩))],
       ⟨[3], 0,
        [REvent.lockAcquire, REvent.cacheGetE (some 3), REvent.decoderCreate 3,
         REvent.decoderOpen 3 true, REvent.cacheAddE 3, REvent.lockRelease,
         REvent.stateQueryE 3 rng01.out, REvent.retrieveVideoE 3 rng01]⟩) := by
  decide

/-- C3 (amended): with the stream and a decoder resolved, the worker
queries the decoder's retrieve state at the adjusted sub-range's end time;
if the state is Ready it requests the frame and, when a frame is returned,
pushes one derived value onto the input's table (when no frame is returned
the table is left unchanged and no notification is emitted); if the state
is not Ready it emits the footage-unavailable notification carrying the
stream, the state, the worker's current path range (the original outer
descriptor's range, set by Render) and the sub-range's end time, and leaves
the table without frame data. -/
theorem claim3_footage_retrieval (env : Env) (input : NodeInput)
    (input_time : TimeRange) (table : NodeValueTable) (st stA : RenderState)
    (s : Stream) (d : Nat)
    (hs : RenderWorker.ResolveStreamFromInput input = some s)
    (hd : RenderWorker.ResolveDecoderFromInput env (some s) st = (some d, stA)) :
    RenderWorker.footageStep env input input_time table st =
      (if env.retState d input_time.out = RetrieveState.kReady then
        match env.retVideo d input_time with
        | some f =>
          (NodeValueTable.Push table DataType.kTexture (env.frameValue s f),
           { stA with events := stA.events ++
              [REvent.stateQueryE d input_time.out,
               REvent.retrieveVideoE d input_time] })
        | none =>
          (table,
           { stA with events := stA.events ++
              [REvent.stateQueryE d input_time.out,
               REvent.retrieveVideoE d input_time] })
      else
        (table,
         { stA with events := stA.events ++
            [REvent.stateQueryE d input_time.out,
             REvent.footageUnavailableE s.id
               (env.retState d input_time.out) env.pathRange
               input_time.out] })) := by
  simp only [RenderWorker.footageStep, hs, hd,
    RenderWorker.decoderGetRetrieveState, RenderWorker.RetrieveFromDecoder,
    RenderWorker.FrameToValue, RenderWorker.ReportUnavailableFootage,
    RenderState.emit]
  by_cases hr : env.retState d input_time.out = RetrieveState.kReady
  · rw [if_pos hr, if_pos hr]
    rcases hv : env.retVideo d input_time with _ | f <;>
      simp [hv, List.append_assoc]
  · rw [if_neg hr, if_neg hr]
    simp [List.append_assoc]

/-- Witness for C3 (amended) on a concrete ready decoder. -/
theorem claim3_witness :
    RenderWorker.footageStep env0 inputFoot3 rng01 NodeValueTable.empty
        stEmpty =
      (if env0.retState 3 rng01.out = RetrieveState.kReady then
        match env0.retVideo 3 rng01 with
        | some f =>
          (NodeValueTable.Push NodeValueTable.empty DataType.kTexture
            (env0.frameValue ⟨3⟩ f),
           { (⟨[3], 0,
              [REvent.lockAcquire, REvent.cacheGetE (some 3),
               REvent.decoderCreate 3, REvent.decoderOpen 3 true,
               REvent.cacheAddE 3, REvent.lockRelease]⟩ : RenderState) with
             events :=
              [REvent.lockAcquire, REvent.cacheGetE (some 3),
               REvent.decoderCreate 3, REvent.decoderOpen 3 true,
               REvent.cacheAddE 3, REvent.lockRelease] ++
              [REvent.stateQueryE 3 rng01.out,
               REvent.retrieveVideoE 3 rng01] })
        | none =>
          (NodeValueTable.empty,
           { (⟨[3], 0,
              [REvent.lockAcquire, REvent.cacheGetE (some 3),
               REvent.decoderCreate 3, REvent.decoderOpen 3 true,
               REvent.cacheAddE 3, REvent.lockRelease]⟩ : RenderState) with
             events :=
              [REvent.lockAcquire, REvent.cacheGetE (some 3),
               REvent.decoderCreate 3, REvent.decoderOpen 3 true,
               REvent.cacheAddE 3, REvent.lockRelease] ++
              [REvent.stateQueryE 3 rng01.out,
               REvent.retrieveVideoE 3 rng01] })
      else
        (NodeValueTable.empty,
         { (⟨[3], 0,
            [REvent.lockAcquire, REvent.cacheGetE (some 3),
             REvent.decoderCreate 3, REvent.decoderOpen 3 true,
             REvent.cacheAddE 3, REvent.lockRelease]⟩ : RenderState) with
           events :=
            [REvent.lockAcquire, REvent.cacheGetE (some 3),
             REvent.decoderCreate 3, REvent.decoderOpen 3 true,
             REvent.cacheAddE 3, REvent.lockRelease] ++
            [REvent.stateQueryE 3 rng01.out,
             REvent.footageUnavailableE 3 (env0.retState 3 rng01.out)
               env0.pathRange rng01.out] })) :=
  claim3_footage_retrieval env0 inputFoot3 rng01 NodeValueTable.empty stEmpty
    ⟨[3], 0,
     [REvent.lockAcquire, REvent.cacheGetE (some 3), REvent.decoderCreate 3,
      REvent.decoderOpen 3 true, REvent.cacheAddE 3, REvent.lockRelease]⟩
    ⟨3⟩ 3 rfl (by decide)

/-- C7 (counterexample to the claim as stated): on a cache miss followed by
a successful open, the decoder creation, Open and Add all occur between the
lock acquisition and its release; they do not happen outside the lock, so
the lock is not held "only around the initial Get". -/
theorem claim7_counterexample :
    RenderWorker.ResolveDecoderFromInput env0 (some ⟨0⟩) stEmpty =
      (some 0,
       ⟨[0], 0,
        [REvent.lockAcquire, REvent.cacheGetE (some 0), REvent.decoderCreate 0,
         REvent.decoderOpen 0 true, REvent.cacheAddE 0, REvent.lockRelease]⟩) ∧
    createOpenAddOutsideLock 0
      [REvent.lockAcquire, REvent.cacheGetE (some 0), REvent.decoderCreate 0,
       REvent.decoderOpen 0 true, REvent.cacheAddE 0, REvent.lockRelease] =
      false := by
  decide

/-- C7 (amended): ResolveDecoderFromInput holds the decoder-cache lock for
its entire body — the events it adds start with the lock acquisition, end
with the release, and contain no lock transition in between — so the Get,
and on a miss the create, Open and Add (or discard), are all performed
under the lock, and the check-create-open-insert sequence is atomic with
respect to the decoder-cache lock. -/
theorem claim7_lock_whole_resolve (env : Env) (stream : Option Stream)
    (st : RenderState) :
    ∃ body : List REvent,
      (RenderWorker.ResolveDecoderFromInput env stream st).2.events =
        st.events ++ (REvent.lockAcquire :: (body ++ [REvent.lockRelease])) ∧
      REvent.lockAcquire ∉ body ∧ REvent.lockRelease ∉ body := by
  cases stream with
  | none =>
    refine ⟨[REvent.cacheGetE none], ?_, by simp, by simp⟩
    simp [RenderWorker.ResolveDecoderFromInput, RenderState.emit,
      DecoderCache.Get]
  | some s =>
    by_cases hmem : s.id ∈ st.cache
    · refine ⟨[REvent.cacheGetE (some s.id)], ?_, by simp, by simp⟩
      simp [RenderWorker.ResolveDecoderFromInput, RenderState.emit,
        DecoderCache.Get, hmem]
    · cases hok : env.openOk s.id with
      | true =>
        refine ⟨[REvent.cacheGetE (some s.id), REvent.decoderCreate s.id,
          REvent.decoderOpen s.id true, REvent.cacheAddE s.id], ?_,
          by simp, by simp⟩
        simp [RenderWorker.ResolveDecoderFromInput, RenderState.emit,
          DecoderCache.Get, hmem, hok]
      | false =>
        refine ⟨[REvent.cacheGetE (some s.id), REvent.decoderCreate s.id,
          REvent.decoderOpen s.id false, REvent.warnOpenFailed s.id], ?_,
          by simp, by simp⟩
        simp [RenderWorker.ResolveDecoderFromInput, RenderState.emit,
          DecoderCache.Get, hmem, hok]

end Olive
